import Mathlib

/-!
# Verification of the chickenScratch signature-verification core

Shallow embedding of the feature-extraction / consistency / verification
engine found in `ml-model/collect_signature_data.py`,
`ml-model/verify_signature.py`, `ml-model/ml_api_server.py` and
`ml-model/train_model_sklearn.py`.

Numeric values are modelled as exact rationals (`ℚ`).  The numeric
square-root routine (numpy's `sqrt`, used for Euclidean distances and
population standard deviations) is an external floating-point primitive and
is passed in as an explicit function parameter `sqrt : ℚ → ℚ`, exactly like
the external classifier and scaler capabilities.  Python dictionaries whose
values may be numbers or `None` are modelled as association lists over
`Option ℚ` (`none` = the Python value `None`); an absent key is the absence
of an entry in the association list.
-/

namespace ChickenScratch

/-- The fixed 19-name feature ordering stored with a trained model
(`train_model_sklearn.py`, `SignatureMLModel._flatten_features`). -/
def featureNames : List String :=
  ["stroke_count", "total_points", "total_duration_ms", "avg_points_per_stroke",
   "avg_velocity", "max_velocity", "min_velocity", "velocity_std",
   "width", "height", "area", "aspect_ratio", "center_x", "center_y",
   "avg_stroke_length", "total_length", "length_variation",
   "avg_stroke_duration", "duration_variation"]

/-- Confidence-score computation of `ml_api_server.py` `predict`
(lines 78-84): if the predicted label is 1 (genuine) use the genuine-class
probability, otherwise use one minus the forgery-class probability, scaled
to 0-100. -/
def confidenceScore (prediction : ℕ) (probability : ℚ × ℚ) : ℚ :=
  if prediction = 1 then probability.2 * 100 else (1 - probability.1) * 100

/-- Per-feature diff computation of `ml_api_server.py` `predict`
(lines 50-68): the absolute difference is used for the count features
`stroke_count` and `total_points`; all other features use the absolute
value of the relative difference `(current - stored) / stored`, with the
`stored = 0` fallback of `1.0` when `current ≠ 0` and `0.0` otherwise. -/
def diffFeature (feature_name : String) (stored_val current_val : ℚ) : ℚ :=
  let diff := |current_val - stored_val|
  let rel_diff :=
    if stored_val ≠ 0 then |(current_val - stored_val) / stored_val|
    else if current_val ≠ 0 then 1 else 0
  if feature_name = "stroke_count" ∨ feature_name = "total_points" then diff
  else rel_diff

/-- Result record of `ml_api_server.py` `predict` (the JSON response
fields that carry the decision). -/
structure MLPrediction where
  prediction : ℕ
  confidence_score : ℚ
  is_genuine : Bool
  prob_forgery : ℚ
  prob_genuine : ℚ

/-- Embeds `ml_api_server.py` `predict` (lines 50-101): build the diff-feature
vector over the model's feature names (`dict.get(name, 0)` supplies 0 for a
missing metric), scale it, and query the external model for a label and the
two class probabilities.  The scaler and the model are external
capabilities and are passed as functions. -/
def mlPredict (feature_names : List String)
    (stored_metrics current_metrics : String → Option ℚ)
    (scalerTransform : List ℚ → List ℚ)
    (modelPredict : List ℚ → ℕ)
    (modelPredictProba : List ℚ → ℚ × ℚ) : MLPrediction :=
  let features := feature_names.map (fun n =>
    diffFeature n ((stored_metrics n).getD 0) ((current_metrics n).getD 0))
  let features_scaled := scalerTransform features
  let prediction := modelPredict features_scaled
  let probability := modelPredictProba features_scaled
  { prediction := prediction
    confidence_score := confidenceScore prediction probability
    is_genuine := decide (prediction = 1)
    prob_forgery := probability.1
    prob_genuine := probability.2 }

/-! ## Data model of raw captures (`collect_signature_data.py`) -/

/-- A captured pen point: coordinates plus an optional millisecond
timestamp (the Python dict may lack the `time` key). -/
structure Point where
  x : ℚ
  y : ℚ
  t : Option ℚ

/-- A stroke: its points plus optional `startTime` / `endTime` keys. -/
structure Stroke where
  points : List Point
  startTime : Option ℚ
  endTime : Option ℚ

/-- A signature capture: the `strokes` list of the raw JSON payload. -/
structure Signature where
  strokes : List Stroke

/-! ## Dictionary model for feature records

A category dictionary maps string keys to numeric values, where a value
may also be the Python `None` (inner `none`).  A features record maps
category names to category dictionaries. -/

/-- One nested category dictionary (e.g. `basic_stats`). -/
abbrev CatDict := List (String × Option ℚ)

/-- The nested features record produced by `process_signature`. -/
abbrev FeaturesDict := List (String × CatDict)

/-- Python `d[k]` on a category dictionary: `some v` when the key is
present (where `v : Option ℚ` may itself be Python `None`), `none` when
the key is absent. -/
def dictGetOpt (d : CatDict) (k : String) : Option (Option ℚ) :=
  (d.find? (fun p => p.1 = k)).map (fun p => p.2)

/-- Python `d.get(k, 0)` on a category dictionary: the stored value when
the key is present (possibly Python `None`), otherwise the number 0. -/
def pyGet (d : CatDict) (k : String) : Option ℚ :=
  (dictGetOpt d k).getD (some 0)

/-- Python `fd.get(c, \x7b\x7d)` on a features record: the category
dictionary when present, otherwise the empty dictionary. -/
def catGet (fd : FeaturesDict) (c : String) : CatDict :=
  ((fd.find? (fun p => p.1 = c)).map (fun p => p.2)).getD []

/-- Python `fd[c][k]` with both indexings strict (a missing category or
key raises `KeyError`; a `None` value would fail in later arithmetic):
`some v` only when both lookups succeed with a number. -/
def fdIndex (fd : FeaturesDict) (c k : String) : Option ℚ :=
  match (fd.find? (fun p => p.1 = c)).map (fun p => p.2) with
  | none => none
  | some d =>
    match dictGetOpt d k with
    | some (some v) => some v
    | _ => none

/-! ## numpy aggregates over rational pools -/

/-- Embeds `np.mean`: sum divided by length (only ever applied to non-empty
pools in the source; `ℚ` division by zero yields 0). -/
def npMean (xs : List ℚ) : ℚ := xs.sum / xs.length

/-- Embeds `np.max` of a pool (the source only applies it to non-empty pools). -/
def npMax : List ℚ → ℚ
  | [] => 0
  | x :: xs => xs.foldl max x

/-- Embeds `np.min` of a pool (the source only applies it to non-empty pools). -/
def npMin : List ℚ → ℚ
  | [] => 0
  | x :: xs => xs.foldl min x

/-- Population variance: mean of squared deviations from the mean. -/
def npVariance (xs : List ℚ) : ℚ :=
  (xs.map (fun x => (x - npMean xs) ^ 2)).sum / xs.length

/-- Embeds `np.std`: the square root of the population variance, computed with
the external numeric square-root routine. -/
def npStd (sqrt : ℚ → ℚ) (xs : List ℚ) : ℚ := sqrt (npVariance xs)

/-! ## Feature extraction (`SignatureDataCollector`) -/

/-- Euclidean distance between two points
(`collect_signature_data.py` line 66 and line 139). -/
def distance (sqrt : ℚ → ℚ) (p1 p2 : Point) : ℚ :=
  sqrt ((p2.x - p1.x) ^ 2 + (p2.y - p1.y) ^ 2)

/-- Time difference between consecutive points
(`_calculate_velocity_features` lines 69-71): defaults to 1 when either
point lacks a timestamp, otherwise `max(t2 - t1, 1)`. -/
def timeDiff (p1 p2 : Point) : ℚ :=
  match p1.t, p2.t with
  | some t1, some t2 => max (t2 - t1) 1
  | _, _ => 1

/-- The consecutive point pairs `(points[i-1], points[i])` of a stroke. -/
def consecutivePairs (points : List Point) : List (Point × Point) :=
  points.zip points.tail

/-- Per-stroke velocity samples: `distance / time_diff` for every
consecutive point pair. -/
def strokeVelocities (sqrt : ℚ → ℚ) (s : Stroke) : List ℚ :=
  (consecutivePairs s.points).map (fun pq => distance sqrt pq.1 pq.2 / timeDiff pq.1 pq.2)

/-- Embeds `_calculate_basic_stats` (lines 35-51). -/
def calculateBasicStats (strokes : List Stroke) : CatDict :=
  let total_points := (strokes.map (fun s => s.points.length)).sum
  let total_duration : ℚ :=
    match strokes.head?, strokes.getLast? with
    | some s0, some sl =>
      match s0.startTime, sl.endTime with
      | some st, some et => et - st
      | _, _ => 0
    | _, _ => 0
  [("stroke_count", some (strokes.length : ℚ)),
   ("total_points", some (total_points : ℚ)),
   ("total_duration_ms", some total_duration),
   ("average_points_per_stroke",
     some (match strokes with
           | [] => 0
           | _ => (total_points : ℚ) / (strokes.length : ℚ)))]

/-- Embeds `_calculate_velocity_features` (lines 53-89): pool the velocity
samples of all strokes and aggregate, or return all-zero fields when the
pool is empty. -/
def calculateVelocityFeatures (sqrt : ℚ → ℚ) (strokes : List Stroke) : CatDict :=
  let velocities := (strokes.map (strokeVelocities sqrt)).flatten
  match velocities with
  | [] =>
    [("average_velocity", some 0), ("max_velocity", some 0),
     ("min_velocity", some 0), ("velocity_std", some 0)]
  | _ =>
    [("average_velocity", some (npMean velocities)),
     ("max_velocity", some (npMax velocities)),
     ("min_velocity", some (npMin velocities)),
     ("velocity_std", some (npStd sqrt velocities))]

/-- Embeds `_calculate_shape_features` (lines 91-123): bounding box of the
flattened point cloud.  Note the empty-cloud branch returns a dictionary
WITHOUT the `center_x` / `center_y` keys, exactly as the source does. -/
def calculateShapeFeatures (strokes : List Stroke) : CatDict :=
  let all_points := (strokes.map (fun s => s.points)).flatten
  match all_points with
  | [] =>
    [("width", some 0), ("height", some 0), ("area", some 0),
     ("aspect_ratio", some 0)]
  | _ =>
    let min_x := npMin (all_points.map (fun p => p.x))
    let min_y := npMin (all_points.map (fun p => p.y))
    let max_x := npMax (all_points.map (fun p => p.x))
    let max_y := npMax (all_points.map (fun p => p.y))
    let width := max_x - min_x
    let height := max_y - min_y
    [("width", some width), ("height", some height),
     ("area", some (width * height)),
     ("aspect_ratio", some (if height > 0 then width / height else 0)),
     ("center_x", some ((min_x + max_x) / 2)),
     ("center_y", some ((min_y + max_y) / 2))]

/-- Length of one stroke: sum of consecutive-pair distances
(`_calculate_stroke_features` lines 134-141). -/
def strokeLength (sqrt : ℚ → ℚ) (s : Stroke) : ℚ :=
  ((consecutivePairs s.points).map (fun pq => distance sqrt pq.1 pq.2)).sum

/-- Embeds `_calculate_stroke_features` (lines 125-158): aggregates of per-stroke
lengths, plus the two duration fields only when at least one stroke
carries both timestamps (exactly as the source conditionally inserts
them). -/
def calculateStrokeFeatures (sqrt : ℚ → ℚ) (strokes : List Stroke) : CatDict :=
  let stroke_lengths := strokes.map (strokeLength sqrt)
  let stroke_durations := strokes.filterMap (fun s =>
    match s.startTime, s.endTime with
    | some a, some b => some (b - a)
    | _, _ => none)
  [("average_stroke_length",
     some (match stroke_lengths with | [] => 0 | _ => npMean stroke_lengths)),
   ("total_length", some stroke_lengths.sum),
   ("length_variation",
     some (match stroke_lengths with | [] => 0 | _ => npStd sqrt stroke_lengths))]
  ++ (match stroke_durations with
      | [] => []
      | _ =>
        [("average_stroke_duration", some (npMean stroke_durations)),
         ("duration_variation", some (npStd sqrt stroke_durations))])

/-- Embeds `process_signature` (lines 16-33): the four numeric feature
categories.  The source also stores a `timestamp` metadata string in the
same record; it is not a numeric category, is never read by flattening or
analysis, and is omitted here. -/
def processSignature (sqrt : ℚ → ℚ) (sig : Signature) : FeaturesDict :=
  [("basic_stats", calculateBasicStats sig.strokes),
   ("velocity_features", calculateVelocityFeatures sqrt sig.strokes),
   ("shape_features", calculateShapeFeatures sig.strokes),
   ("stroke_features", calculateStrokeFeatures sqrt sig.strokes)]

/-! ## Flattening (`verify_signature.py` / `train_model_sklearn.py`,
`_flatten_features`) -/

/-- Embeds `_flatten_features` (`verify_signature.py` lines 50-99, identical in
`train_model_sklearn.py` lines 56-112): pull the 19 slots out of the four
category dictionaries with `.get(key, 0)`, then replace any Python `None`
by 0. -/
def flattenFeatures (fd : FeaturesDict) : List ℚ :=
  let basic := catGet fd "basic_stats"
  let velocity := catGet fd "velocity_features"
  let shape := catGet fd "shape_features"
  let stroke := catGet fd "stroke_features"
  let flat_features : List (Option ℚ) :=
    [pyGet basic "stroke_count",
     pyGet basic "total_points",
     pyGet basic "total_duration_ms",
     pyGet basic "average_points_per_stroke",
     pyGet velocity "average_velocity",
     pyGet velocity "max_velocity",
     pyGet velocity "min_velocity",
     pyGet velocity "velocity_std",
     pyGet shape "width",
     pyGet shape "height",
     pyGet shape "area",
     pyGet shape "aspect_ratio",
     pyGet shape "center_x",
     pyGet shape "center_y",
     pyGet stroke "average_stroke_length",
     pyGet stroke "total_length",
     pyGet stroke "length_variation",
     pyGet stroke "average_stroke_duration",
     pyGet stroke "duration_variation"]
  flat_features.map (fun x => x.getD 0)

/-- The 19 (category, key) addresses of the flattened slots, in the fixed
order. -/
def featureKeys : List (String × String) :=
  [("basic_stats", "stroke_count"),
   ("basic_stats", "total_points"),
   ("basic_stats", "total_duration_ms"),
   ("basic_stats", "average_points_per_stroke"),
   ("velocity_features", "average_velocity"),
   ("velocity_features", "max_velocity"),
   ("velocity_features", "min_velocity"),
   ("velocity_features", "velocity_std"),
   ("shape_features", "width"),
   ("shape_features", "height"),
   ("shape_features", "area"),
   ("shape_features", "aspect_ratio"),
   ("shape_features", "center_x"),
   ("shape_features", "center_y"),
   ("stroke_features", "average_stroke_length"),
   ("stroke_features", "total_length"),
   ("stroke_features", "length_variation"),
   ("stroke_features", "average_stroke_duration"),
   ("stroke_features", "duration_variation")]

/-- Follows the spec's words, for comparison with `flattenFeatures`: one
slot per feature key in the fixed order, where a slot holds the stored
number when the category, the key and a numeric value are all present,
and 0 for every missing or `None` entry. -/
def flattenFeaturesSpec (fd : FeaturesDict) : List ℚ :=
  featureKeys.map (fun ck =>
    match dictGetOpt (catGet fd ck.1) ck.2 with
    | some (some v) => v
    | _ => 0)

/-! ## Verification engine (`verify_signature.py`, `SignatureVerifier`) -/

/-- The dimension adjustment of `verify_signature` (lines 113-119): when
the flattened vector's length differs from the expected feature count it
is silently padded with zeros (shorter) or truncated (longer). -/
def ensureLength (flat_features : List ℚ) (n : ℕ) : List ℚ :=
  if flat_features.length ≠ n then
    if flat_features.length < n then
      flat_features ++ List.replicate (n - flat_features.length) 0
    else flat_features.take n
  else flat_features

/-- The `analysis` record returned by `verify_signature`
(lines 134-143). -/
structure VerifyAnalysis where
  is_genuine : Bool
  confidence : ℚ
  threshold : ℚ
  features : List (String × ℚ)
  verdict : String

/-- Embeds `verify_signature` after flattening (lines 113-145): adjust the vector
length, scale it, query the external Keras model for its scalar output,
and build the analysis record.  `modelPredict` is the external
`model.predict(...)[0][0]` capability, `scalerTransform` the external
scaler. -/
def verifyFlat (modelPredict : List ℚ → ℚ) (scalerTransform : List ℚ → List ℚ)
    (feature_names : List String) (flat0 : List ℚ) : VerifyAnalysis :=
  let flat_features := ensureLength flat0 feature_names.length
  let prediction := modelPredict (scalerTransform flat_features)
  let confidence := prediction * 100
  let is_genuine := decide (prediction > 1 / 2)
  { is_genuine := is_genuine
    confidence := confidence
    threshold := 50
    features := (feature_names.take flat_features.length).zip flat_features
    verdict := if is_genuine then "GENUINE" else "FORGERY DETECTED" }

/-- Embeds `verify_signature` (lines 101-145): extract the attempt's features,
flatten them, and run the flat verification pipeline. -/
def verifySignature (sqrt : ℚ → ℚ) (modelPredict : List ℚ → ℚ)
    (scalerTransform : List ℚ → List ℚ) (feature_names : List String)
    (signature_data : Signature) : VerifyAnalysis :=
  verifyFlat modelPredict scalerTransform feature_names
    (flattenFeatures (processSignature sqrt signature_data))

/-! ## Consistency analyzer (`collect_signature_data.py`,
`analyze_consistency`) -/

/-- One record of the collector's `signatures` list, as stored by
`save_signature`: the user id, the `genuine` / `forgery` tag, and the
extracted features (the raw capture is not read by the analyzer and is
omitted). -/
structure SignatureRecord where
  user_id : String
  tag : String
  features : FeaturesDict

/-- Result of `analyze_consistency`: either the "Need at least 2
signatures to analyze consistency" message or the numeric report. -/
inductive ConsistencyResult where
  | needMoreData : ConsistencyResult
  | report (velocity_consistency stroke_count_consistency area_consistency : ℚ)
      (sample_count : ℕ) : ConsistencyResult
deriving DecidableEq

/-- Sequence a list of strict dictionary lookups: `some` of all values
when every lookup succeeded, `none` as soon as one raises (`KeyError`). -/
def allSome : List (Option ℚ) → Option (List ℚ)
  | [] => some []
  | none :: _ => none
  | some v :: xs =>
    match allSome xs with
    | some vs => some (v :: vs)
    | none => none

/-- One consistency score (lines 208-210): `1 - cv` where
`cv = std / mean` when the mean is positive and 0 otherwise. -/
def consistencyScore (sqrt : ℚ → ℚ) (values : List ℚ) : ℚ :=
  1 - (if npMean values > 0 then npStd sqrt values / npMean values else 0)

/-- Embeds `analyze_consistency` (lines 191-214): keep the claimed user's genuine
records; with fewer than 2 of them return the need-more-data message;
otherwise read the three metrics out of each record's nested features
(strict indexing — a malformed record propagates as `none`) and report the
three consistency scores together with the sample count. -/
def analyzeConsistency (sqrt : ℚ → ℚ) (signatures : List SignatureRecord)
    (user_id : String) : Option ConsistencyResult :=
  let user_signatures := signatures.filter (fun s =>
    s.user_id == user_id && s.tag == "genuine")
  if user_signatures.length < 2 then some ConsistencyResult.needMoreData
  else
    match
      allSome (user_signatures.map (fun s =>
        fdIndex s.features "velocity_features" "average_velocity")),
      allSome (user_signatures.map (fun s =>
        fdIndex s.features "basic_stats" "stroke_count")),
      allSome (user_signatures.map (fun s =>
        fdIndex s.features "shape_features" "area")) with
    | some velocities, some stroke_counts, some areas =>
      some (ConsistencyResult.report
        (consistencyScore sqrt velocities)
        (consistencyScore sqrt stroke_counts)
        (consistencyScore sqrt areas)
        user_signatures.length)
    | _, _, _ => none

/-! ## Helper lemmas -/

theorem ensureLength_length (flat : List ℚ) (n : ℕ) :
    (ensureLength flat n).length = n := by
  unfold ensureLength
  split
  · split
    · simp
      omega
    · simp
      omega
  · omega

theorem ensureLength_of_le (flat : List ℚ) (n : ℕ) (h : flat.length ≤ n) :
    ensureLength flat n = flat ++ List.replicate (n - flat.length) 0 := by
  unfold ensureLength
  split
  · split
    · rfl
    · omega
  · simp
    omega

theorem ensureLength_of_ge (flat : List ℚ) (n : ℕ) (h : n ≤ flat.length) :
    ensureLength flat n = flat.take n := by
  unfold ensureLength
  split
  · split
    · omega
    · rfl
  · simp
    omega

theorem dictGetOpt_velocity (sqrt : ℚ → ℚ) (strokes : List Stroke) :
    ∃ v, dictGetOpt (calculateVelocityFeatures sqrt strokes) "average_velocity"
      = some (some v) := by
  unfold calculateVelocityFeatures
  cases (strokes.map (strokeVelocities sqrt)).flatten with
  | nil => exact ⟨0, rfl⟩
  | cons x xs => exact ⟨npMean (x :: xs), rfl⟩

theorem dictGetOpt_stroke_count (strokes : List Stroke) :
    ∃ v, dictGetOpt (calculateBasicStats strokes) "stroke_count"
      = some (some v) :=
  ⟨(strokes.length : ℚ), rfl⟩

theorem dictGetOpt_area (strokes : List Stroke) :
    ∃ v, dictGetOpt (calculateShapeFeatures strokes) "area"
      = some (some v) := by
  unfold calculateShapeFeatures
  cases (strokes.map (fun s => s.points)).flatten with
  | nil => exact ⟨0, rfl⟩
  | cons p ps => exact ⟨_, rfl⟩

theorem fdIndex_processed (sqrt : ℚ → ℚ) (sig : Signature) :
    (∃ v, fdIndex (processSignature sqrt sig) "velocity_features"
        "average_velocity" = some v)
    ∧ (∃ v, fdIndex (processSignature sqrt sig) "basic_stats"
        "stroke_count" = some v)
    ∧ (∃ v, fdIndex (processSignature sqrt sig) "shape_features"
        "area" = some v) := by
  refine ⟨?_, ?_, ?_⟩
  · obtain ⟨v, hv⟩ := dictGetOpt_velocity sqrt sig.strokes
    exact ⟨v, by unfold fdIndex processSignature; simp [hv]⟩
  · obtain ⟨v, hv⟩ := dictGetOpt_stroke_count sig.strokes
    exact ⟨v, by unfold fdIndex processSignature; simp [hv]⟩
  · obtain ⟨v, hv⟩ := dictGetOpt_area sig.strokes
    exact ⟨v, by unfold fdIndex processSignature; simp [hv]⟩

theorem allSome_of_forall (l : List (Option ℚ))
    (h : ∀ x ∈ l, ∃ v, x = some v) :
    ∃ vs, allSome l = some vs := by
  induction l with
  | nil => exact ⟨[], rfl⟩
  | cons x xs ih =>
    obtain ⟨v, hv⟩ := h x (List.mem_cons_self x xs)
    obtain ⟨vs, hvs⟩ := ih (fun y hy => h y (List.mem_cons_of_mem _ hy))
    subst hv
    exact ⟨v :: vs, by simp [allSome, hvs]⟩

theorem consistencyScore_pair (sqrt : ℚ → ℚ) (h0 : sqrt 0 = 0) (x : ℚ) :
    consistencyScore sqrt [x, x] = 1 := by
  have hm : npMean [x, x] = x := by
    simp [npMean]
  have hvar : npVariance [x, x] = 0 := by
    simp [npVariance, hm]
  have hs : npStd sqrt [x, x] = 0 := by rw [npStd, hvar, h0]
  unfold consistencyScore
  rw [hs, hm]
  split
  · simp
  · simp

theorem pyGet_getD (d : CatDict) (k : String) :
    (pyGet d k).getD 0 =
      match dictGetOpt d k with
      | some (some v) => v
      | _ => 0 := by
  unfold pyGet
  cases h : dictGetOpt d k with
  | none => rfl
  | some o => cases o <;> rfl

/-! ## Theorems -/

/-- C1: the confidence reported by the prediction endpoint equals
`probabilities[1] * 100` when the label is 1 and
`(1 - probabilities[0]) * 100` when the label is 0; in particular
label 1 with probabilities `[0.12, 0.88]` yields 88 and label 0 with
probabilities `[0.7, 0.3]` yields 30, and `mlPredict` consumes exactly
this rule for its `confidence_score` field. -/
theorem confidence_rule :
    (∀ p : ℚ × ℚ, confidenceScore 1 p = p.2 * 100
      ∧ confidenceScore 0 p = (1 - p.1) * 100)
    ∧ confidenceScore 1 (12 / 100, 88 / 100) = 88
    ∧ confidenceScore 0 (7 / 10, 3 / 10) = 30
    ∧ (∀ names stored current sc mp mpr,
        (mlPredict names stored current sc mp mpr).confidence_score
          = confidenceScore (mlPredict names stored current sc mp mpr).prediction
              ((mlPredict names stored current sc mp mpr).prob_forgery,
               (mlPredict names stored current sc mp mpr).prob_genuine)) := by
  refine ⟨fun p => ⟨by simp [confidenceScore], by simp [confidenceScore]⟩,
    by norm_num [confidenceScore], by norm_num [confidenceScore],
    fun _ _ _ _ _ _ => rfl⟩

/-- C2 counterexample: for a non-count feature with a negative reference
value, the code's diff (the absolute value of the quotient) differs from
the claim's formula `|attempt - reference| / reference`: at
reference = -2, attempt = 0 the code produces 1 while the claim's formula
gives -1. -/
theorem diffFeature_negative_reference :
    diffFeature "width" (-2) 0 ≠ |(0 : ℚ) - (-2)| / (-2)
    ∧ diffFeature "width" (-2) 0 = 1 := by
  have hval : diffFeature "width" (-2) 0 = 1 := by
    simp only [diffFeature]
    rw [if_neg (by decide), if_pos (by norm_num)]
    norm_num
  refine ⟨?_, hval⟩
  rw [hval]
  norm_num

/-- C2 amended: for every feature name in the fixed 19-name order, the
diff fed to the classifier is the absolute difference for `stroke_count`
and `total_points`, and otherwise the relative difference
`|attempt - reference| / |reference|` (the quotient's absolute value)
when the reference is non-zero, else 1 when the attempt is non-zero,
else 0. -/
theorem diffFeature_rule (name : String) (_hname : name ∈ featureNames) (r a : ℚ) :
    diffFeature name r a =
      if name = "stroke_count" ∨ name = "total_points" then |a - r|
      else if r ≠ 0 then |a - r| / |r|
      else if a ≠ 0 then 1 else 0 := by
  simp only [diffFeature]
  split
  · rfl
  · split
    · exact abs_div _ _
    · rfl

/-- C2 witness: the amended rule applied at the concrete non-count
feature `width` with reference 2 and attempt 3. -/
theorem diffFeature_rule_witness :
    diffFeature "width" 2 3 =
      if "width" = "stroke_count" ∨ "width" = "total_points" then |(3 : ℚ) - 2|
      else if (2 : ℚ) ≠ 0 then |(3 : ℚ) - 2| / |(2 : ℚ)|
      else if (3 : ℚ) ≠ 0 then 1 else 0 :=
  diffFeature_rule "width" (by decide) 2 3

/-- C3: the verdict is the classifier's own decision.  On the Keras path
(`verify_signature.py`) `is_genuine` is exactly the classifier output
compared with 0.5, equivalently `confidence > 50` with the fixed
threshold 50; on the scikit-learn path (`ml_api_server.py`) `is_genuine`
is exactly `label == 1`.  No independent re-thresholding happens. -/
theorem verdict_matches_classifier :
    (∀ (sqrt : ℚ → ℚ) (mp : List ℚ → ℚ) (st : List ℚ → List ℚ)
       (names : List String) (sig : Signature),
      (verifySignature sqrt mp st names sig).is_genuine
        = decide (mp (st (ensureLength
            (flattenFeatures (processSignature sqrt sig)) names.length)) > 1 / 2)
      ∧ ((verifySignature sqrt mp st names sig).is_genuine = true
          ↔ (verifySignature sqrt mp st names sig).confidence > 50)
      ∧ (verifySignature sqrt mp st names sig).threshold = 50)
    ∧ (∀ names stored current sc mp mpr,
        (mlPredict names stored current sc mp mpr).is_genuine
          = decide ((mlPredict names stored current sc mp mpr).prediction = 1)) := by
  constructor
  · intro sqrt mp st names sig
    refine ⟨rfl, ?_, rfl⟩
    simp only [verifySignature, verifyFlat, decide_eq_true_iff]
    constructor <;> intro h <;> linarith
  · intro _ _ _ _ _ _
    rfl

/-- C6: a flattened vector whose length differs from the expected feature
count is silently repaired rather than rejected: the adjusted vector
always has exactly the expected length, a short vector is padded with
zeros, a long vector is truncated, and verification then feeds the
adjusted vector to the scaler and classifier. -/
theorem ensureLength_spec (flat : List ℚ) (n : ℕ) :
    (ensureLength flat n).length = n
    ∧ (flat.length ≤ n →
        ensureLength flat n = flat ++ List.replicate (n - flat.length) 0)
    ∧ (n ≤ flat.length → ensureLength flat n = flat.take n)
    ∧ (∀ (mp : List ℚ → ℚ) (st : List ℚ → List ℚ) (names : List String),
        (verifyFlat mp st names flat).confidence
          = mp (st (ensureLength flat names.length)) * 100) := by
  exact ⟨ensureLength_length flat n, ensureLength_of_le flat n,
    ensureLength_of_ge flat n, fun mp st names => rfl⟩

/-- C6 witness: the pad and truncate branches applied at the concrete
vector `[3, 4]` with expected lengths 3 and 1. -/
theorem ensureLength_spec_witness :
    ensureLength [(3 : ℚ), 4] 3 = [(3 : ℚ), 4] ++ List.replicate 1 0
    ∧ ensureLength [(3 : ℚ), 4] 1 = [(3 : ℚ), 4].take 1 := by
  constructor
  · have h := (ensureLength_spec [(3 : ℚ), 4] 3).2.1 (by decide)
    simpa using h
  · exact (ensureLength_spec [(3 : ℚ), 4] 1).2.2.1 (by decide)

/-- C5: for every feature record — including records missing whole
categories, missing optional keys, or carrying `None` values — flattening
produces exactly the 19 slots of `featureKeys` in order, each slot being
the stored number when present and 0 for every missing or `None` entry
(the spec-side description `flattenFeaturesSpec`); in particular the
result always has length 19. -/
theorem flatten_refines_spec (fd : FeaturesDict) :
    flattenFeatures fd = flattenFeaturesSpec fd
    ∧ (flattenFeatures fd).length = 19 := by
  have h : flattenFeatures fd = flattenFeaturesSpec fd := by
    simp only [flattenFeatures, flattenFeaturesSpec, featureKeys,
      List.map_cons, List.map_nil, pyGet_getD]
  exact ⟨h, by rw [h]; simp [flattenFeaturesSpec, featureKeys]⟩

/-- C4: extraction of a signature with no strokes, followed by
flattening, yields the all-zero 19-element vector (extraction itself is a
total function of the embedding, so no error is possible on degenerate
input). -/
theorem extract_empty (sqrt : ℚ → ℚ) (sig : Signature)
    (h : sig.strokes = []) :
    flattenFeatures (processSignature sqrt sig) = List.replicate 19 0 := by
  obtain ⟨strokes⟩ := sig
  simp only at h
  subst h
  rfl

/-- C4 witness: the empty signature flattens to 19 zeros. -/
theorem extract_empty_witness :
    flattenFeatures (processSignature (fun q => q) ⟨[]⟩)
      = List.replicate 19 0 :=
  extract_empty (fun q => q) ⟨[]⟩ rfl

/-- C9 counterexample: the verdict string emitted for a rejected attempt
is `FORGERY DETECTED`, which is neither of the claimed enum values
`GENUINE` and `FORGERY`. -/
theorem verdict_not_in_claimed_enum :
    ¬((verifySignature (fun q => q) (fun _ => 0) (fun v => v)
        featureNames ⟨[]⟩).verdict = "GENUINE"
      ∨ (verifySignature (fun q => q) (fun _ => 0) (fun v => v)
          featureNames ⟨[]⟩).verdict = "FORGERY")
    ∧ (verifySignature (fun q => q) (fun _ => 0) (fun v => v)
        featureNames ⟨[]⟩).verdict = "FORGERY DETECTED" := by
  have hv : (verifySignature (fun q => q) (fun _ => 0) (fun v => v)
      featureNames ⟨[]⟩).verdict = "FORGERY DETECTED" := by
    norm_num [verifySignature, verifyFlat]
  refine ⟨?_, hv⟩
  rw [hv]
  decide

/-- C9 amended: the emitted analysis record's `features` mapping pairs
each feature name, in order, with the pre-normalization flattened value of
the attempt itself (the length-adjusted flat vector — not diffs against a
reference, which this pipeline never computes, and not the scaled vector),
and the verdict is `GENUINE` exactly when the attempt is accepted and
`FORGERY DETECTED` otherwise. -/
theorem report_fields (sqrt : ℚ → ℚ) (mp : List ℚ → ℚ)
    (st : List ℚ → List ℚ) (names : List String) (sig : Signature) :
    (verifySignature sqrt mp st names sig).features.map Prod.fst = names
    ∧ (verifySignature sqrt mp st names sig).features.map Prod.snd
        = ensureLength (flattenFeatures (processSignature sqrt sig)) names.length
    ∧ ((verifySignature sqrt mp st names sig).verdict = "GENUINE"
        ∨ (verifySignature sqrt mp st names sig).verdict = "FORGERY DETECTED")
    ∧ ((verifySignature sqrt mp st names sig).verdict = "GENUINE"
        ↔ (verifySignature sqrt mp st names sig).is_genuine = true) := by
  have hlen : (ensureLength (flattenFeatures (processSignature sqrt sig))
      names.length).length = names.length :=
    ensureLength_length _ _
  simp only [verifySignature, verifyFlat]
  refine ⟨?_, ?_, ?_, ?_⟩
  · rw [hlen, List.take_length]
    exact List.map_fst_zip _ _ hlen.ge
  · rw [hlen, List.take_length]
    exact List.map_snd_zip _ _ hlen.le
  · split
    · exact Or.inl rfl
    · exact Or.inr rfl
  · cases hb : decide (mp (st (ensureLength
        (flattenFeatures (processSignature sqrt sig)) names.length)) > 1 / 2) <;>
      simp

/-- C7: with fewer than 2 genuine samples stored for the claimed identity
the consistency analyzer returns the need-more-data message rather than a
numeric report or a crash; with 2 or more genuine samples (each carrying
features produced by extraction) it returns a report carrying the sample
count. -/
theorem analyzeConsistency_history (sqrt : ℚ → ℚ)
    (signatures : List SignatureRecord) (uid : String) :
    ((signatures.filter
        (fun s => s.user_id == uid && s.tag == "genuine")).length < 2 →
      analyzeConsistency sqrt signatures uid
        = some ConsistencyResult.needMoreData)
    ∧ (2 ≤ (signatures.filter
          (fun s => s.user_id == uid && s.tag == "genuine")).length →
        (∀ s ∈ signatures.filter
            (fun s => s.user_id == uid && s.tag == "genuine"),
          ∃ g, s.features = processSignature sqrt g) →
        ∃ a b c, analyzeConsistency sqrt signatures uid
          = some (ConsistencyResult.report a b c
              (signatures.filter
                (fun s => s.user_id == uid && s.tag == "genuine")).length)) := by
  constructor
  · intro h
    simp only [analyzeConsistency]
    rw [if_pos h]
  · intro h2 hfeat
    simp only [analyzeConsistency]
    rw [if_neg (by omega)]
    have hv : ∃ vs, allSome ((signatures.filter
        (fun s => s.user_id == uid && s.tag == "genuine")).map
          (fun s => fdIndex s.features "velocity_features" "average_velocity"))
        = some vs := by
      apply allSome_of_forall
      intro x hx
      rw [List.mem_map] at hx
      obtain ⟨s, hs, rfl⟩ := hx
      obtain ⟨g, hg⟩ := hfeat s hs
      rw [hg]
      exact (fdIndex_processed sqrt g).1
    have hc : ∃ vs, allSome ((signatures.filter
        (fun s => s.user_id == uid && s.tag == "genuine")).map
          (fun s => fdIndex s.features "basic_stats" "stroke_count"))
        = some vs := by
      apply allSome_of_forall
      intro x hx
      rw [List.mem_map] at hx
      obtain ⟨s, hs, rfl⟩ := hx
      obtain ⟨g, hg⟩ := hfeat s hs
      rw [hg]
      exact (fdIndex_processed sqrt g).2.1
    have ha : ∃ vs, allSome ((signatures.filter
        (fun s => s.user_id == uid && s.tag == "genuine")).map
          (fun s => fdIndex s.features "shape_features" "area"))
        = some vs := by
      apply allSome_of_forall
      intro x hx
      rw [List.mem_map] at hx
      obtain ⟨s, hs, rfl⟩ := hx
      obtain ⟨g, hg⟩ := hfeat s hs
      rw [hg]
      exact (fdIndex_processed sqrt g).2.2
    obtain ⟨vs, hvs⟩ := hv
    obtain ⟨cs, hcs⟩ := hc
    obtain ⟨ars, hars⟩ := ha
    rw [hvs, hcs, hars]
    exact ⟨_, _, _, rfl⟩

/-- C7 witness: a history of two genuine empty-signature samples for user
`u` yields a report with sample count 2, while the same theorem's first
branch is exercised by the single-sample history. -/
theorem analyzeConsistency_history_witness :
    (∃ a b c,
      analyzeConsistency (fun q => q)
        [⟨"u", "genuine", processSignature (fun q => q) ⟨[]⟩⟩,
         ⟨"u", "genuine", processSignature (fun q => q) ⟨[]⟩⟩] "u"
        = some (ConsistencyResult.report a b c 2))
    ∧ analyzeConsistency (fun q => q)
        [⟨"u", "genuine", processSignature (fun q => q) ⟨[]⟩⟩] "u"
        = some ConsistencyResult.needMoreData := by
  constructor
  · have h := (analyzeConsistency_history (fun q => q)
        [⟨"u", "genuine", processSignature (fun q => q) ⟨[]⟩⟩,
         ⟨"u", "genuine", processSignature (fun q => q) ⟨[]⟩⟩] "u").2
      (by simp [List.filter]) ?_
    · have hl : (([⟨"u", "genuine", processSignature (fun q => q) ⟨[]⟩⟩,
          ⟨"u", "genuine", processSignature (fun q => q) ⟨[]⟩⟩]
            : List SignatureRecord).filter
          (fun s => s.user_id == "u" && s.tag == "genuine")).length = 2 := by
        simp [List.filter]
      rw [hl] at h
      exact h
    · intro s hs
      have hm := (List.mem_filter.mp hs).1
      simp only [List.mem_cons, List.not_mem_nil, or_false] at hm
      refine ⟨⟨[]⟩, ?_⟩
      rcases hm with rfl | rfl <;> rfl
  · exact (analyzeConsistency_history (fun q => q)
        [⟨"u", "genuine", processSignature (fun q => q) ⟨[]⟩⟩] "u").1
      (by simp [List.filter])

/-- C8: analyzing a history consisting of two identical copies of one
feature vector (any record exposing the three analyzed metrics) yields
all three consistency scores equal to 1: the standard deviation of two
equal values is 0, so `cv = std / mean` contributes 0 on either side of
the positive-mean test. -/
theorem analyze_identical_pair (sqrt : ℚ → ℚ) (h0 : sqrt 0 = 0)
    (uid : String) (fd : FeaturesDict) (vv sc ar : ℚ)
    (hv : fdIndex fd "velocity_features" "average_velocity" = some vv)
    (hs : fdIndex fd "basic_stats" "stroke_count" = some sc)
    (ha : fdIndex fd "shape_features" "area" = some ar) :
    analyzeConsistency sqrt [⟨uid, "genuine", fd⟩, ⟨uid, "genuine", fd⟩] uid
      = some (ConsistencyResult.report 1 1 1 2) := by
  have hfilter : (([⟨uid, "genuine", fd⟩, ⟨uid, "genuine", fd⟩]
      : List SignatureRecord).filter
        (fun s => s.user_id == uid && s.tag == "genuine"))
      = [⟨uid, "genuine", fd⟩, ⟨uid, "genuine", fd⟩] := by
    simp [List.filter]
  simp only [analyzeConsistency, hfilter]
  rw [if_neg (by simp)]
  simp only [List.map_cons, List.map_nil, hv, hs, ha, allSome]
  rw [consistencyScore_pair sqrt h0 vv, consistencyScore_pair sqrt h0 sc,
    consistencyScore_pair sqrt h0 ar]
  rfl

/-- C8 witness: two identical records for user `u` whose features carry
average velocity 2, stroke count 3 and area 4 score 1 on all three
consistency metrics. -/
theorem analyze_identical_pair_witness :
    analyzeConsistency (fun q => q)
      [⟨"u", "genuine",
        [("velocity_features", [("average_velocity", some 2)]),
         ("basic_stats", [("stroke_count", some 3)]),
         ("shape_features", [("area", some 4)])]⟩,
       ⟨"u", "genuine",
        [("velocity_features", [("average_velocity", some 2)]),
         ("basic_stats", [("stroke_count", some 3)]),
         ("shape_features", [("area", some 4)])]⟩] "u"
      = some (ConsistencyResult.report 1 1 1 2) :=
  analyze_identical_pair (fun q => q) rfl "u"
    [("velocity_features", [("average_velocity", some 2)]),
     ("basic_stats", [("stroke_count", some 3)]),
     ("shape_features", [("area", some 4)])] 2 3 4
    (by rfl) (by rfl) (by rfl)

/-- C10: the time difference used for each consecutive point pair in the
velocity computation is at least 1 — including when either point lacks a
timestamp — so the division `distance / time_diff` never divides by
zero. -/
theorem timeDiff_at_least_one :
    ∀ p1 p2 : Point, 1 ≤ timeDiff p1 p2 ∧ timeDiff p1 p2 ≠ 0 := by
  intro p1 p2
  have h : 1 ≤ timeDiff p1 p2 := by
    unfold timeDiff
    cases p1.t <;> cases p2.t <;> simp [le_max_right]
  exact ⟨h, ne_of_gt (lt_of_lt_of_le zero_lt_one h)⟩

end ChickenScratch
